import Mathlib

/-!
Verification development for the job orchestration core of the
Metasploit recon backend (src/backend/app.py).

The Python backend is shallowly embedded: every pure function is
translated to a computable Lean function, and the stateful parts
(the job registry mutated under job_lock by create_job, cancel_job
and execute_job) are modelled by an explicit job state together with
atomic actions, one per locked critical section of the source.  The
filesystem and the external scanning engine are abstracted by an
oracle value describing the outcome of each subprocess interaction.
-/

namespace MetasploitRecon

/-- Payload dictionary returned by execute_metasploit_tool.  The Python
code returns dicts with different key sets depending on the branch, so
every key is modelled as optional; a key absent from the returned dict
is none. -/
structure ToolResult where
  success : Option Bool := none
  output : Option String := none
  stderr : Option String := none
  return_code : Option Int := none
  error : Option String := none
  deriving Repr, DecidableEq

/-- One entry of job.results, as appended by execute_job:
{"tool": ..., "timestamp": ..., "result": ...}. -/
structure ResultEntry where
  tool : String
  timestamp : String
  result : ToolResult
  deriving Repr, DecidableEq

/-- One element of the request tool list: ToolConfig(name, config).
The config dictionary is consulted only for the numeric options
threads and timeout, so it is embedded as an association list of
integer-valued options. -/
structure ToolConfig where
  name : String
  config : List (String × Int) := []
  deriving Repr, DecidableEq

/-- The Job dataclass of the source. -/
structure Job where
  id : String
  target : String
  profile_name : String
  tools : List ToolConfig
  status : String
  created_at : String
  started_at : Option String := none
  completed_at : Option String := none
  results : List ResultEntry := []
  error : Option String := none
  deriving Repr, DecidableEq

/-- The static tool-name to Metasploit-module dictionary of
execute_metasploit_tool. -/
def module_mapping : List (String × String) :=
  [("ping-sweep", "auxiliary/scanner/discovery/udp_sweep"),
   ("tcp-syn-scan", "auxiliary/scanner/portscan/syn"),
   ("udp-scan", "auxiliary/scanner/discovery/udp_sweep"),
   ("service-version-scan", "auxiliary/scanner/portscan/tcp"),
   ("os-fingerprint", "auxiliary/scanner/portscan/tcp"),
   ("smb-enum", "auxiliary/scanner/smb/smb_enumshares"),
   ("snmp-enum", "auxiliary/scanner/snmp/snmp_enum"),
   ("dns-enum", "auxiliary/gather/dns_enum"),
   ("web-crawl", "auxiliary/scanner/http/crawl"),
   ("web-app-scan", "auxiliary/scanner/http/http_version"),
   ("cve-lookup", "auxiliary/scanner/portscan/tcp")]

/-- The command script written to the per-tool resource file. -/
def metasploitCommands (module target : String) (threads timeout : Int) : List String :=
  ["use " ++ module,
   "set RHOSTS " ++ target,
   "set THREADS " ++ toString threads,
   "set TIMEOUT " ++ toString timeout,
   "run",
   "exit"]

/-- Outcome of the subprocess section of execute_metasploit_tool (the
try block around subprocess.run): the engine finished with an exit
code, a stderr capture and an optional output file; or it hit the
300 second deadline (subprocess.TimeoutExpired); or some other
exception was raised inside the try block. -/
inductive ProcOutcome where
  | finished (returncode : Int) (stderr : String) (outputFile : Option String)
  | timedOut
  | raised (msg : String)
  deriving Repr, DecidableEq

/-- execute_metasploit_tool.  Returns the result dictionary together
with a flag recording whether the external engine subprocess was
launched.  An unknown tool name returns before any file is written or
any process spawned, so the oracle value is never consulted there. -/
def executeMetasploitTool (tool_name target : String) (config : List (String × Int))
    (proc : ProcOutcome) : ToolResult × Bool :=
  match module_mapping.lookup tool_name with
  | none => ({ error := some ("Unknown tool: " ++ tool_name) }, false)
  | some module =>
    let threads := (config.lookup "threads").getD 10
    let timeout := (config.lookup "timeout").getD 5
    let _cmds := metasploitCommands module target threads timeout
    match proc with
    | .finished rc stderr out =>
        ({ success := some (rc == 0), output := some (out.getD ""),
           stderr := some stderr, return_code := some rc }, true)
    | .timedOut =>
        ({ success := some false, error := some "Tool execution timed out",
           output := some "" }, true)
    | .raised msg =>
        ({ success := some false, error := some msg, output := some "" }, true)

/-- Per-invocation environment seen by the execute_job loop body for
one tool: either an exception propagates out of the invocation
pipeline itself (resource file IO, malformed tool dict, ...), which
the except branch of execute_job catches, or the call reaches the
inner try block and execute_metasploit_tool returns a result built
from the subprocess outcome. -/
inductive StepEnv where
  | fault (msg : String)
  | proc (p : ProcOutcome)
  deriving Repr, DecidableEq

/-- One atomic critical section mutating a Job under job_lock:
the initial status update of execute_job, a result append, the
completed / failed finalisation, and the cancel endpoint body. -/
inductive Action where
  | runnerStart (t : String)
  | runnerAppend (tool : String) (t : String) (r : ToolResult)
  | runnerComplete (t : String)
  | runnerFail (t : String) (msg : String)
  | cancel (t : String)
  deriving Repr, DecidableEq

/-- Body of the DELETE endpoint cancel_job for a job that exists: if
the status is running the job becomes cancelled (flag true for the
success message), otherwise the job is untouched and the endpoint
raises 400 (flag false). -/
def cancel_job (j : Job) (t : String) : Job × Bool :=
  if j.status = "running" then
    ({ j with status := "cancelled", completed_at := some t }, true)
  else
    (j, false)

/-- Effect of one atomic action on the job, exactly as the
corresponding locked section of the source writes the fields. -/
def applyAction (j : Job) (a : Action) : Job :=
  match a with
  | .runnerStart t => { j with status := "running", started_at := some t }
  | .runnerAppend tool t r => { j with results := j.results ++ [⟨tool, t, r⟩] }
  | .runnerComplete t => { j with status := "completed", completed_at := some t }
  | .runnerFail t msg =>
      { j with status := "failed", completed_at := some t, error := some msg }
  | .cancel t => (cancel_job j t).1

/-- Run a sequence of atomic actions (an interleaving of the runner
sections with cancel requests, all serialised by job_lock). -/
def runTrace (j : Job) (as : List Action) : Job :=
  as.foldl applyAction j

/-- The sequence of locked actions the execute_job tool loop performs
from tool index i on, paired with the names of the tools whose
invocation is attempted.  A pipeline fault at tool i jumps to the
except branch (runnerFail) and ends the loop; otherwise the result of
execute_metasploit_tool is appended and the loop continues.  After the
last tool the job is finalised as completed.  The function ts supplies
the successive datetime.utcnow() strings. -/
def runnerLoop (target : String) (env : Nat → StepEnv) (ts : Nat → String) :
    List ToolConfig → Nat → List Action × List String
  | [], i => ([Action.runnerComplete (ts i)], [])
  | tc :: rest, i =>
    match env i with
    | .fault msg => ([Action.runnerFail (ts i) msg], [tc.name])
    | .proc p =>
      let r := (executeMetasploitTool tc.name target tc.config p).1
      let next := runnerLoop target env ts rest (i + 1)
      (Action.runnerAppend tc.name (ts i) r :: next.1, tc.name :: next.2)

/-- execute_job for an existing job, with no concurrent cancel:
set running and started_at, then (unless the creation of the job
workspace directory itself raises, mkdirFault) run the tool loop.
Returns the final job together with the attempted tool names. -/
def executeJob (j : Job) (mkdirFault : Option String) (env : Nat → StepEnv)
    (tsStart : String) (ts : Nat → String) : Job × List String :=
  let j1 := applyAction j (Action.runnerStart tsStart)
  match mkdirFault with
  | some msg => (applyAction j1 (Action.runnerFail (ts 0) msg), [])
  | none =>
    let acts := runnerLoop j.target env ts j.tools 0
    (runTrace j1 acts.1, acts.2)

/-- self.max_requests_per_minute. -/
def max_requests_per_minute : Nat := 10

/-- The pruning step of check_rate_limit: keep the timestamps strictly
newer than now minus 60 seconds. -/
def pruneTimes (times : List ℤ) (now : ℤ) : List ℤ :=
  times.filter (fun t => decide (now - 60 < t))

/-- check_rate_limit.  The per-client dictionary self.rate_limits is a
total map defaulting to [], which coincides with the source creating a
missing key with an empty list before use.  Returns the admission
decision and the updated map; note that the pruned list is stored even
on rejection, but nothing new is recorded then. -/
def check_rate_limit (rate_limits : String → List ℤ) (client_ip : String) (now : ℤ) :
    Bool × (String → List ℤ) :=
  let kept := pruneTimes (rate_limits client_ip) now
  if max_requests_per_minute ≤ kept.length then
    (false, fun c => if c = client_ip then kept else rate_limits c)
  else
    (true, fun c => if c = client_ip then kept ++ [now] else rate_limits c)

/-- Python str.startswith: the pattern is a character-sequence prefix
of the target. -/
def startswith (target pat : String) : Bool :=
  pat.data.isPrefixOf target.data

/-- The allowed_patterns list of validate_target_authorization. -/
def allowed_patterns : List String :=
  ["127.0.0.1", "localhost", "192.168.", "10.",
   "172.16.", "172.17.", "172.18.", "172.19.", "172.20.", "172.21.",
   "172.22.", "172.23.", "172.24.", "172.25.", "172.26.", "172.27.",
   "172.28.", "172.29.", "172.30.", "172.31."]

/-- validate_target_authorization: any(target.startswith(pattern)). -/
def validate_target_authorization (target : String) : Bool :=
  allowed_patterns.any (fun p => startswith target p)

/-- Errors the create_job endpoint reports synchronously. -/
inductive CreateError where
  | RateLimited
  | Unauthorized
  deriving Repr, DecidableEq

/-- Backend state touched by the admission path: the job registry and
the rate-limit map. -/
structure BackendState where
  jobs : List (String × Job)
  rate_limits : String → List ℤ

/-- The create_job endpoint body.  The requester argument is the
identity the transport layer would attribute the request to; the
source ignores it and fixes client_ip = "127.0.0.1" (the comment in
the source reads: in production, get from request).  job_id and
created_at stand for the generated uuid and utcnow timestamp. -/
def create_job (st : BackendState) (requester : String) (target profile_name : String)
    (tools : List ToolConfig) (now : ℤ) (job_id created_at : String) :
    Except CreateError String × BackendState :=
  let client_ip := "127.0.0.1"
  let checked := check_rate_limit st.rate_limits client_ip now
  if checked.1 = false then
    (.error .RateLimited, { st with rate_limits := checked.2 })
  else if validate_target_authorization target = false then
    (.error .Unauthorized, { st with rate_limits := checked.2 })
  else
    let job : Job :=
      { id := job_id, target := target, profile_name := profile_name,
        tools := tools, status := "pending", created_at := created_at,
        results := [] }
    (.ok job_id, { jobs := st.jobs ++ [(job_id, job)], rate_limits := checked.2 })

/-- Decisions of a sequence of check_rate_limit calls for one client,
threading the updated map through. -/
def simulateCalls (rate_limits : String → List ℤ) (client_ip : String) :
    List ℤ → List Bool
  | [] => []
  | t :: rest =>
    let step := check_rate_limit rate_limits client_ip t
    step.1 :: simulateCalls step.2 client_ip rest

/-! ## Theorems -/

/-- Claim C8: validate_target_authorization returns true exactly when the
target string begins with one of the fixed allow-list patterns (loopback,
localhost, RFC1918 private prefixes); 127.0.0.1, 10.0.0.5 and 192.168.1.1
are authorized, 8.8.8.8 and evil.example.com are not, and empty or
whitespace-only targets are not authorized. -/
theorem C8_target_authorization :
    (∀ t : String, validate_target_authorization t
        = allowed_patterns.any (fun p => startswith t p))
    ∧ validate_target_authorization "127.0.0.1" = true
    ∧ validate_target_authorization "10.0.0.5" = true
    ∧ validate_target_authorization "192.168.1.1" = true
    ∧ validate_target_authorization "8.8.8.8" = false
    ∧ validate_target_authorization "evil.example.com" = false
    ∧ validate_target_authorization "" = false
    ∧ validate_target_authorization " " = false
    ∧ validate_target_authorization "  " = false
    ∧ validate_target_authorization "\t" = false
    ∧ validate_target_authorization " \t " = false :=
  ⟨fun _ => rfl, by decide, by decide, by decide, by decide, by decide,
   by decide, by decide, by decide, by decide, by decide⟩

/-- Claim C3, counterexample: at the unknown tool name frobnicate the
returned dictionary has no success key at all (success is none, not
some false), so the claim that invoke returns success=false is wrong
for this code; the process-launched flag is false as claimed. -/
theorem C3_counterexample :
    (executeMetasploitTool "frobnicate" "127.0.0.1" [] (ProcOutcome.finished 0 "" none)).2 = false
    ∧ (executeMetasploitTool "frobnicate" "127.0.0.1" [] (ProcOutcome.finished 0 "" none)).1.success = none
    ∧ ¬ (executeMetasploitTool "frobnicate" "127.0.0.1" [] (ProcOutcome.finished 0 "" none)).1.success
        = some false := by
  decide

/-- Claim C3, amended: for every tool name absent from module_mapping,
execute_metasploit_tool returns, without launching any process and
independently of the subprocess oracle, a dictionary whose only set
field is the error message naming the unknown tool; in particular the
success field is absent (none) rather than an explicit false. -/
theorem C3_unknown_tool (tool_name target : String) (config : List (String × Int))
    (p : ProcOutcome) (h : module_mapping.lookup tool_name = none) :
    executeMetasploitTool tool_name target config p
      = ({ error := some ("Unknown tool: " ++ tool_name) }, false) := by
  unfold executeMetasploitTool
  rw [h]

/-- Witness for C3_unknown_tool at the concrete tool name frobnicate. -/
theorem C3_unknown_tool_witness :
    module_mapping.lookup "frobnicate" = none
    ∧ executeMetasploitTool "frobnicate" "127.0.0.1" [] ProcOutcome.timedOut
        = ({ error := some "Unknown tool: frobnicate" }, false) :=
  ⟨by decide, C3_unknown_tool "frobnicate" "127.0.0.1" [] ProcOutcome.timedOut (by decide)⟩

/-- Unfolding equation for check_rate_limit. -/
theorem check_rate_limit_eq (rl : String → List ℤ) (ip : String) (now : ℤ) :
    check_rate_limit rl ip now
      = if max_requests_per_minute ≤ (pruneTimes (rl ip) now).length then
          (false, fun c => if c = ip then pruneTimes (rl ip) now else rl c)
        else
          (true, fun c => if c = ip then pruneTimes (rl ip) now ++ [now] else rl c) := rfl

/-- Claim C7: the threshold defaults to 10; each call prunes entries not
strictly newer than now minus 60 before deciding; with at least the
threshold many surviving timestamps the call is rejected and records
nothing new (only the pruned list is kept); otherwise now is recorded
and the call accepted.  Hence an 11th call while 10 recorded timestamps
are within the window is rejected, a call whose recorded timestamps are
all at least 61 seconds old is accepted, and the concrete call sequence
1..10, 55, 72 for one client decides accept ten times, then reject,
then accept. -/
theorem C7_rate_limiter :
    max_requests_per_minute = 10
    ∧ (∀ (rl : String → List ℤ) (ip : String) (now : ℤ),
        max_requests_per_minute ≤ (pruneTimes (rl ip) now).length →
        (check_rate_limit rl ip now).1 = false
        ∧ (check_rate_limit rl ip now).2 ip = pruneTimes (rl ip) now)
    ∧ (∀ (rl : String → List ℤ) (ip : String) (now : ℤ),
        (pruneTimes (rl ip) now).length < max_requests_per_minute →
        (check_rate_limit rl ip now).1 = true
        ∧ (check_rate_limit rl ip now).2 ip = pruneTimes (rl ip) now ++ [now])
    ∧ (∀ (rl : String → List ℤ) (ip : String) (now : ℤ),
        (rl ip).length = 10 → (∀ t ∈ rl ip, now - 60 < t) →
        (check_rate_limit rl ip now).1 = false
        ∧ (check_rate_limit rl ip now).2 ip = rl ip)
    ∧ (∀ (rl : String → List ℤ) (ip : String) (now : ℤ),
        (∀ t ∈ rl ip, t ≤ now - 61) →
        (check_rate_limit rl ip now).1 = true)
    ∧ simulateCalls (fun _ => []) "client" [1, 2, 3, 4, 5, 6, 7, 8, 9, 10, 55, 72]
        = [true, true, true, true, true, true, true, true, true, true, false, true] := by
  refine ⟨rfl, ?_, ?_, ?_, ?_, by decide⟩
  · intro rl ip now h
    rw [check_rate_limit_eq, if_pos h]
    exact ⟨rfl, if_pos rfl⟩
  · intro rl ip now h
    rw [check_rate_limit_eq, if_neg (Nat.not_le.mpr h)]
    exact ⟨rfl, if_pos rfl⟩
  · intro rl ip now hlen hin
    have hkeep : pruneTimes (rl ip) now = rl ip := by
      simp only [pruneTimes]
      exact List.filter_eq_self.mpr (fun t ht => decide_eq_true (hin t ht))
    have hge : max_requests_per_minute ≤ (pruneTimes (rl ip) now).length := by
      rw [hkeep, hlen]; decide
    rw [check_rate_limit_eq, if_pos hge]
    exact ⟨rfl, (if_pos rfl).trans hkeep⟩
  · intro rl ip now hold
    have hnil : pruneTimes (rl ip) now = [] := by
      simp only [pruneTimes]
      refine List.filter_eq_nil_iff.mpr (fun t ht => ?_)
      have := hold t ht
      simp only [decide_eq_true_eq]
      omega
    have hlt : (pruneTimes (rl ip) now).length < max_requests_per_minute := by
      rw [hnil]; decide
    rw [check_rate_limit_eq, if_neg (Nat.not_le.mpr hlt)]

/-- Witness for C7_rate_limiter at concrete rate-limit states: a call
with ten in-window timestamps is rejected and keeps them; a call with
an empty list is accepted; a call whose ten timestamps are 61 seconds
old is accepted. -/
theorem C7_rate_limiter_witness :
    ((check_rate_limit (fun _ => [1, 2, 3, 4, 5, 6, 7, 8, 9, 10]) "c" 30).1 = false
      ∧ (check_rate_limit (fun _ => [1, 2, 3, 4, 5, 6, 7, 8, 9, 10]) "c" 30).2 "c"
          = [1, 2, 3, 4, 5, 6, 7, 8, 9, 10])
    ∧ ((check_rate_limit (fun _ => []) "c" 0).1 = true
      ∧ (check_rate_limit (fun _ => []) "c" 0).2 "c" = [0])
    ∧ (check_rate_limit (fun _ => [1, 2, 3, 4, 5, 6, 7, 8, 9, 10]) "c" 71).1 = true := by
  refine ⟨C7_rate_limiter.2.2.2.1 (fun _ => [1, 2, 3, 4, 5, 6, 7, 8, 9, 10]) "c" 30
      (by decide) (by decide),
    ?_, C7_rate_limiter.2.2.2.2.1 (fun _ => [1, 2, 3, 4, 5, 6, 7, 8, 9, 10]) "c" 71 (by decide)⟩
  have := C7_rate_limiter.2.2.1 (fun _ => []) "c" 0 (by decide)
  exact ⟨this.1, by rw [this.2]; decide⟩

/-- Folding one more action. -/
theorem runTrace_cons (j : Job) (a : Action) (as : List Action) :
    runTrace j (a :: as) = runTrace (applyAction j a) as := rfl

/-- If no tool invocation faults, running the loop actions from any
job finalises it as completed and appends exactly one result entry per
tool. -/
theorem runnerLoop_no_fault (target : String) (env : Nat → StepEnv) (ts : Nat → String)
    (tools : List ToolConfig) :
    ∀ (i : Nat) (j : Job),
      (∀ k, k < tools.length → ∃ p, env (i + k) = StepEnv.proc p) →
      (runTrace j (runnerLoop target env ts tools i).1).status = "completed"
      ∧ (runTrace j (runnerLoop target env ts tools i).1).results.length
          = j.results.length + tools.length := by
  induction tools with
  | nil =>
    intro i j _
    simp [runnerLoop, runTrace, applyAction]
  | cons tc rest ih =>
    intro i j h
    obtain ⟨p, hp⟩ := h 0 (Nat.succ_pos _)
    rw [Nat.add_zero] at hp
    have hrest : ∀ k, k < rest.length → ∃ q, env (i + 1 + k) = StepEnv.proc q := by
      intro k hk
      have := h (k + 1) (by simpa using Nat.succ_lt_succ hk)
      rwa [show i + (k + 1) = i + 1 + k by omega] at this
    have step := ih (i + 1)
      (applyAction j (Action.runnerAppend tc.name (ts i)
        (executeMetasploitTool tc.name target tc.config p).1)) hrest
    simp only [runnerLoop, hp]
    rw [runTrace_cons]
    refine ⟨step.1, ?_⟩
    rw [step.2]
    simp [applyAction]
    omega

/-- Every run of the loop actions ends with the job either completed
(error untouched) or failed with the error field set. -/
theorem runnerLoop_final (target : String) (env : Nat → StepEnv) (ts : Nat → String)
    (tools : List ToolConfig) :
    ∀ (i : Nat) (j : Job),
      ((runTrace j (runnerLoop target env ts tools i).1).status = "completed"
        ∧ (runTrace j (runnerLoop target env ts tools i).1).error = j.error)
      ∨ ((runTrace j (runnerLoop target env ts tools i).1).status = "failed"
        ∧ (runTrace j (runnerLoop target env ts tools i).1).error.isSome = true) := by
  induction tools with
  | nil =>
    intro i j
    left
    simp [runnerLoop, runTrace, applyAction]
  | cons tc rest ih =>
    intro i j
    cases hp : env i with
    | fault msg =>
      right
      simp [runnerLoop, hp, runTrace, applyAction]
    | proc p =>
      simp only [runnerLoop, hp]
      rw [runTrace_cons]
      cases ih (i + 1)
          (applyAction j (Action.runnerAppend tc.name (ts i)
            (executeMetasploitTool tc.name target tc.config p).1)) with
      | inl hc => exact Or.inl ⟨hc.1, by rw [hc.2]; rfl⟩
      | inr hf => exact Or.inr hf

/-- Claim C4: a tool whose returned result reports success=false does
not abort the sequence: as long as no invocation raises a pipeline
fault, execute_job finalises the job as completed and appends one
result entry per tool, whatever each returned result says. -/
theorem C4_tool_failure_not_aborting (j : Job) (env : Nat → StepEnv)
    (tsStart : String) (ts : Nat → String)
    (h : ∀ k, k < j.tools.length → ∃ p, env k = StepEnv.proc p) :
    (executeJob j none env tsStart ts).1.status = "completed"
    ∧ (executeJob j none env tsStart ts).1.results.length
        = j.results.length + j.tools.length := by
  have := runnerLoop_no_fault j.target env ts j.tools 0
    (applyAction j (Action.runnerStart tsStart)) (by simpa using h)
  simpa [executeJob, applyAction] using this

/-- Concrete job of the C4 scenario: two tools, the first reporting
success=false (exit code 1), the second success=true (exit code 0). -/
def tcA : ToolConfig := { name := "tcp-syn-scan" }

def tcB : ToolConfig := { name := "ping-sweep" }

def jobAB : Job :=
  { id := "j2", target := "10.0.0.5", profile_name := "scan",
    tools := [tcA, tcB], status := "pending", created_at := "t0" }

def envAB : Nat → StepEnv := fun i =>
  if i = 0 then StepEnv.proc (ProcOutcome.finished 1 "err" none)
  else StepEnv.proc (ProcOutcome.finished 0 "" (some "out"))

/-- Witness for C4 at the scenario of the claim: tools [A, B], A
reports success=false, B success=true; the job is completed with two
results, the first result carrying success=false. -/
theorem C4_witness :
    ((executeJob jobAB none envAB "t1" (fun _ => "t")).1.status = "completed"
      ∧ (executeJob jobAB none envAB "t1" (fun _ => "t")).1.results.length
          = jobAB.results.length + jobAB.tools.length)
    ∧ (executeJob jobAB none envAB "t1" (fun _ => "t")).1.results.length = 2
    ∧ (executeJob jobAB none envAB "t1" (fun _ => "t")).1.results.map
        (fun e => e.result.success) = [some false, some true] := by
  refine ⟨C4_tool_failure_not_aborting jobAB envAB "t1" (fun _ => "t") ?_, by decide, by decide⟩
  intro k hk
  have hk2 : k < 2 := by simpa [jobAB, tcA, tcB] using hk
  match k, hk2 with
  | 0, _ => exact ⟨ProcOutcome.finished 1 "err" none, rfl⟩
  | 1, _ => exact ⟨ProcOutcome.finished 0 "" (some "out"), rfl⟩

/-- Claim C5: a pipeline fault while invoking the first of two tools
drives the job to failed, appends no result (results stay empty), sets
the error to the fault text, and the second tool is never invoked (the
attempted-invocation list is exactly the first tool). -/
theorem C5_fault_aborts_job (j : Job) (tA tB : ToolConfig) (env : Nat → StepEnv)
    (tsStart : String) (ts : Nat → String) (msg : String)
    (htools : j.tools = [tA, tB]) (hres : j.results = [])
    (henv : env 0 = StepEnv.fault msg) :
    (executeJob j none env tsStart ts).1.status = "failed"
    ∧ (executeJob j none env tsStart ts).1.results = []
    ∧ (executeJob j none env tsStart ts).1.error = some msg
    ∧ (executeJob j none env tsStart ts).2 = [tA.name] := by
  simp [executeJob, htools, runnerLoop, henv, runTrace, applyAction, hres]

/-- Witness for C5 at a concrete two-tool job whose first invocation
faults with text boom. -/
theorem C5_witness :
    (executeJob jobAB none (fun _ => StepEnv.fault "boom") "t1" (fun _ => "t")).1.status = "failed"
    ∧ (executeJob jobAB none (fun _ => StepEnv.fault "boom") "t1" (fun _ => "t")).1.results = []
    ∧ (executeJob jobAB none (fun _ => StepEnv.fault "boom") "t1" (fun _ => "t")).1.error
        = some "boom"
    ∧ (executeJob jobAB none (fun _ => StepEnv.fault "boom") "t1" (fun _ => "t")).2
        = ["tcp-syn-scan"] :=
  C5_fault_aborts_job jobAB tcA tcB (fun _ => StepEnv.fault "boom") "t1" (fun _ => "t")
    "boom" rfl rfl rfl

/-- Claim C6, counterexample: it is not true that every failed job
carries a non-empty error text: a pipeline fault whose exception
renders to the empty string (str(e) of a bare exception) leaves a
failed job whose error is the empty string. -/
theorem C6_counterexample :
    ¬ (∀ (j : Job) (mk : Option String) (env : Nat → StepEnv)
        (tsStart : String) (ts : Nat → String),
        (executeJob j mk env tsStart ts).1.status = "failed" →
        ∃ m, (executeJob j mk env tsStart ts).1.error = some m ∧ m ≠ "") := by
  intro hall
  obtain ⟨m, hm, hne⟩ :=
    hall jobAB none (fun _ => StepEnv.fault "") "t1" (fun _ => "t") (by decide)
  have hm0 : (executeJob jobAB none (fun _ => StepEnv.fault "") "t1" (fun _ => "t")).1.error
      = some "" := by decide
  rw [hm0] at hm
  exact hne (Option.some.inj hm).symm

/-- Claim C6, amended: every job that execute_job leaves in status
failed has its error field set (it holds str of the caught exception);
the text is non-empty whenever the exception renders to non-empty
text, but may be the empty string, so non-emptiness of the stored text
is not guaranteed. -/
theorem C6_failed_error_set (j : Job) (mk : Option String) (env : Nat → StepEnv)
    (tsStart : String) (ts : Nat → String)
    (h : (executeJob j mk env tsStart ts).1.status = "failed") :
    (executeJob j mk env tsStart ts).1.error.isSome = true := by
  cases mk with
  | some msg => simp [executeJob, applyAction]
  | none =>
    have hfin := runnerLoop_final j.target env ts j.tools 0
      (applyAction j (Action.runnerStart tsStart))
    simp only [executeJob] at h ⊢
    rcases hfin with hc | hf
    · rw [h] at hc
      exact absurd hc.1 (by decide)
    · exact hf.2

/-- Witness for C6_failed_error_set at a concrete faulting run. -/
theorem C6_witness :
    (executeJob jobAB none (fun _ => StepEnv.fault "disk full") "t1" (fun _ => "t")).1.status
        = "failed"
    ∧ (executeJob jobAB none (fun _ => StepEnv.fault "disk full") "t1" (fun _ => "t")).1.error.isSome
        = true :=
  ⟨by decide,
   C6_failed_error_set jobAB none (fun _ => StepEnv.fault "disk full") "t1" (fun _ => "t")
     (by decide)⟩

/-- A pending one-tool job as create_job builds it. -/
def jobDemo : Job :=
  { id := "j1", target := "127.0.0.1", profile_name := "scan",
    tools := [{ name := "ping-sweep" }], status := "pending", created_at := "t0" }

/-- Claim C1, demonstration of the violation: the runner starts the
job, a cancel request is served and succeeds (status becomes the
terminal cancelled), and then the remaining runner critical sections
run unchecked: the finalisation overwrites the terminal cancelled
status with completed. -/
theorem C1_terminal_status_overwritten :
    (cancel_job (applyAction jobDemo (Action.runnerStart "t1")) "t2").2 = true
    ∧ (runTrace jobDemo [Action.runnerStart "t1", Action.cancel "t2"]).status = "cancelled"
    ∧ (runTrace jobDemo
        ([Action.runnerStart "t1", Action.cancel "t2"]
          ++ (runnerLoop jobDemo.target
                (fun _ => StepEnv.proc (ProcOutcome.finished 0 "" none))
                (fun _ => "t3") jobDemo.tools 0).1)).status = "completed" := by
  decide

/-- Claim C2, demonstration of the violation: after the job reaches
the terminal cancelled status, the runner loop still appends the
result of the next tool invocation: a result entry is appended while
the status is cancelled, not running. -/
theorem C2_append_after_cancelled :
    ((runTrace jobDemo [Action.runnerStart "t1", Action.cancel "t2"]).status = "cancelled"
      ∧ (runTrace jobDemo [Action.runnerStart "t1", Action.cancel "t2"]).results.length = 0)
    ∧ (runTrace jobDemo
        ([Action.runnerStart "t1", Action.cancel "t2"]
          ++ (runnerLoop jobDemo.target
                (fun _ => StepEnv.proc (ProcOutcome.finished 0 "" none))
                (fun _ => "t3") jobDemo.tools 0).1)).results.length = 1 := by
  decide

instance : DecidableEq (Except CreateError String) := fun a b =>
  match a, b with
  | .error x, .error y =>
    if h : x = y then isTrue (congrArg Except.error h)
    else isFalse (fun hc => h (Except.error.inj hc))
  | .ok x, .ok y =>
    if h : x = y then isTrue (congrArg Except.ok h)
    else isFalse (fun hc => h (Except.ok.inj hc))
  | .error _, .ok _ => isFalse (fun hc => Except.noConfusion hc)
  | .ok _, .error _ => isFalse (fun hc => Except.noConfusion hc)

/-- The empty backend state: no jobs, no recorded timestamps. -/
def st0 : BackendState := { jobs := [], rate_limits := fun _ => [] }

/-- One create_job call for target 10.0.0.5, keeping only the state. -/
def createStep (st : BackendState) (r : String) (now : ℤ) : BackendState :=
  (create_job st r "10.0.0.5" "scan" [] now "id" "t").2

/-- State after ten requests by client A at seconds 1..10. -/
def stAfterA : BackendState :=
  ([1, 2, 3, 4, 5, 6, 7, 8, 9, 10] : List ℤ).foldl (fun st t => createStep st "A" t) st0

/-- Claim C9, demonstration of the violation: the create_job admission
decision is identical for any two requester identities (the source
fixes client_ip to 127.0.0.1 instead of the identity of the caller),
and concretely, after ten requests by client A within the window, the
first request ever made by client B is rejected as RateLimited, so
requests of one identity do affect admission of another. -/
theorem C9_rate_limit_shared_across_clients :
    (∀ (st : BackendState) (r1 r2 target pn : String) (tools : List ToolConfig)
        (now : ℤ) (jid ca : String),
      create_job st r1 target pn tools now jid ca
        = create_job st r2 target pn tools now jid ca)
    ∧ (create_job stAfterA "B" "10.0.0.5" "scan" [] 11 "id" "t").1
        = Except.error CreateError.RateLimited := by
  refine ⟨fun st r1 r2 target pn tools now jid ca => rfl, by decide⟩

/-- Claim C10: a create_job call that passes the rate-limit check and
is then rejected as unauthorized still has recorded its admission
timestamp for the (fixed) client identity, and creates no job. -/
theorem C10_unauthorized_consumes_slot (st : BackendState) (requester target pn : String)
    (tools : List ToolConfig) (now : ℤ) (jid ca : String)
    (hrate : (pruneTimes (st.rate_limits "127.0.0.1") now).length < max_requests_per_minute)
    (hauth : validate_target_authorization target = false) :
    (create_job st requester target pn tools now jid ca).1
        = Except.error CreateError.Unauthorized
    ∧ (create_job st requester target pn tools now jid ca).2.rate_limits "127.0.0.1"
        = pruneTimes (st.rate_limits "127.0.0.1") now ++ [now]
    ∧ (create_job st requester target pn tools now jid ca).2.jobs = st.jobs := by
  have hcheck := check_rate_limit_eq st.rate_limits "127.0.0.1" now
  rw [if_neg (Nat.not_le.mpr hrate)] at hcheck
  simp [create_job, hcheck, hauth]

/-- Witness for C10: from the empty state, a request for the
unauthorized target 8.8.8.8 is rejected as unauthorized, yet the
rate-limit window of the fixed client identity now holds the request
timestamp, and no job exists. -/
theorem C10_witness :
    (create_job st0 "A" "8.8.8.8" "scan" [] 0 "id" "t").1
        = Except.error CreateError.Unauthorized
    ∧ (create_job st0 "A" "8.8.8.8" "scan" [] 0 "id" "t").2.rate_limits "127.0.0.1" = [0]
    ∧ (create_job st0 "A" "8.8.8.8" "scan" [] 0 "id" "t").2.jobs = [] := by
  have := C10_unauthorized_consumes_slot st0 "A" "8.8.8.8" "scan" [] 0 "id" "t"
    (by decide) (by decide)
  exact ⟨this.1, by rw [this.2.1]; decide, this.2.2⟩

end MetasploitRecon
